import Mathlib

/-!
Shallow embedding of the welding-defect inspection front-end:
the Next.js proxy route (src/app/api/model/route.ts) and the
client page component (src/app/page.tsx).

Conventions of the embedding:
* React state setters become field updates on explicit state records.
* JavaScript truthiness of strings (empty string is falsy in a || chain)
  is modelled by jsOrStr.
* Asynchronous calls (getUserMedia, fetch, axios) are modelled by
  environment functions passed as parameters; a thrown exception is the
  none / Except.error case of the environment result.
* The fetch request issued by the proxy is returned alongside the
  response as an observable record, so that theorems can speak about
  what was forwarded upstream.
-/

namespace WeldDetect

/-- Facing mode of a camera stream: user is the front camera,
environment is the back camera. -/
inductive FacingMode where
  | user
  | environment
deriving DecidableEq

/-- The mode toggle performed by switchCamera:
newMode = cameraFacingMode === "user" ? "environment" : "user". -/
def toggleMode : FacingMode → FacingMode
  | .user => .environment
  | .environment => .user

/-- One media track of a stream; stopped records whether track.stop()
has been called on it. -/
structure MediaTrack where
  id : Nat
  stopped : Bool
deriving DecidableEq

/-- A MediaStream as used by the page: its tracks, tagged with the
facing mode it was acquired for. -/
structure MediaStream where
  tracks : List MediaTrack
  facing : FacingMode
deriving DecidableEq

/-- The video element: only its srcObject matters to the page logic. -/
structure VideoEl where
  srcObject : Option MediaStream
deriving DecidableEq

/-- The camera-related React state of WeldingDefectDetector, together
with the videoRef target. video = none models videoRef.current null. -/
structure CamUI where
  video : Option VideoEl
  isCameraActive : Bool
  cameraFacingMode : FacingMode
  error : Option String
deriving DecidableEq

/-- A getUserMedia constraint as built by the page: either a plain
facingMode constraint or the mobile ideal-environment constraint. -/
inductive MediaConstraint where
  | exactMode (m : FacingMode)
  | idealEnvironment
deriving DecidableEq

/-- tracks.forEach(track => track.stop()) on a stream. -/
def stopTracks (m : MediaStream) : MediaStream :=
  { m with tracks := m.tracks.map fun t => { t with stopped := true } }

/-- stopCamera: stop every track of the attached stream, clear
srcObject, set isCameraActive false.  The second component is the
now-detached stream after its tracks were stopped (none when no stream
was attached), kept observable so theorems can inspect the stopped
tracks. -/
def stopCamera (s : CamUI) : CamUI × Option MediaStream :=
  match s.video with
  | some v =>
    match v.srcObject with
    | some m =>
      ({ s with video := some { srcObject := none }, isCameraActive := false },
       some (stopTracks m))
    | none => ({ s with isCameraActive := false }, none)
  | none => ({ s with isCameraActive := false }, none)

/-- Number of non-stopped tracks of a stream. -/
def streamActiveTracks (m : MediaStream) : Nat :=
  (m.tracks.filter fun t => !t.stopped).length

/-- Number of non-stopped tracks reachable from the component after an
operation: tracks of the stream still attached to the video element
plus tracks of a stream the operation just detached. -/
def activeTrackCount (s : CamUI) (detached : Option MediaStream) : Nat :=
  (match s.video with
   | some v =>
     match v.srcObject with
     | some m => streamActiveTracks m
     | none => 0
   | none => 0) +
  (match detached with
   | some m => streamActiveTracks m
   | none => 0)

/-- The error message set by startCamera when both attempts fail. -/
def cameraErrorMsg : String :=
  "Could not access camera. Please check permissions and ensure your device has a camera."

/-- startCamera: set isCameraActive true, then, only when the video
element exists, request a stream (ideal environment on mobile, user
otherwise) with a user-facing fallback; on total failure set the error
message and clear isCameraActive.  The second component lists the
constraints passed to getUserMedia, in order. -/
def startCamera (isMobile : Bool)
    (gum : MediaConstraint → Option MediaStream) (s : CamUI) :
    CamUI × List MediaConstraint :=
  let s1 := { s with isCameraActive := true }
  match s1.video with
  | none => (s1, [])
  | some _ =>
    let c1 := if isMobile then MediaConstraint.idealEnvironment
              else MediaConstraint.exactMode FacingMode.user
    match gum c1 with
    | some stream => ({ s1 with video := some { srcObject := some stream } }, [c1])
    | none =>
      match gum (MediaConstraint.exactMode FacingMode.user) with
      | some fb =>
        ({ s1 with video := some { srcObject := some fb } },
         [c1, MediaConstraint.exactMode FacingMode.user])
      | none =>
        ({ s1 with error := some cameraErrorMsg, isCameraActive := false },
         [c1, MediaConstraint.exactMode FacingMode.user])

/-- The error message set by switchCamera when the requested mode
fails. -/
def switchErrorMsg (newMode : FacingMode) : String :=
  "Could not access " ++
    (match newMode with
     | .user => "front"
     | .environment => "back") ++ " camera."

/-- switchCamera: stop and detach the current stream, toggle
cameraFacingMode unconditionally, then, when the video element exists,
request the new mode; on failure set an error and fall back to the
prior mode (the closure still holds the old cameraFacingMode value);
if the fallback also fails, clear isCameraActive. -/
def switchCamera (gum : MediaConstraint → Option MediaStream) (s : CamUI) : CamUI :=
  let s1 :=
    match s.video with
    | some v =>
      match v.srcObject with
      | some _ => { s with video := some { srcObject := none } }
      | none => s
    | none => s
  let newMode := toggleMode s.cameraFacingMode
  let s2 := { s1 with cameraFacingMode := newMode }
  match s2.video with
  | none => s2
  | some _ =>
    match gum (MediaConstraint.exactMode newMode) with
    | some stream => { s2 with video := some { srcObject := some stream } }
    | none =>
      let s3 := { s2 with error := some (switchErrorMsg newMode) }
      match gum (MediaConstraint.exactMode s.cameraFacingMode) with
      | some fallbackStream => { s3 with video := some { srcObject := some fallbackStream } }
      | none => { s3 with isCameraActive := false }

/-- One prediction returned by the inference service.  The source field
named class is spelled cls here because class is a reserved word. -/
structure Prediction where
  bbox : Int × Int × Int × Int
  cls : String
  confidence : Rat
deriving DecidableEq

/-- Displayed and natural size of the rendered image. -/
structure ImageDimensions where
  width : Nat
  height : Nat
  naturalWidth : Nat
  naturalHeight : Nat
deriving DecidableEq

/-- The analysis-related React state of WeldingDefectDetector. -/
structure AnalysisState where
  imageURL : Option String
  predictions : List Prediction
  imageSize : Option ImageDimensions
  isLoading : Bool
  error : Option String
  scanAnimation : Bool
deriving DecidableEq

/-- JavaScript s.includes(sub): sub occurs contiguously in s. -/
def jsIncludes (s sub : String) : Bool :=
  decide (sub.toList <:+: s.toList)

/-- Lower-casing of one character as performed by toLowerCase on the
ASCII range: shift an upper-case letter by 32, keep anything else. -/
def jsCharLower (c : Char) : Char :=
  if 65 ≤ c.toNat ∧ c.toNat ≤ 90 then Char.ofNat (c.toNat + 32) else c

/-- JavaScript s.toLowerCase(), character by character. -/
def jsToLower (s : String) : String := ⟨s.data.map jsCharLower⟩

/-- JavaScript a || b over an optional string a, where both undefined
and the empty string are falsy. -/
def jsOrStr (a : Option String) (b : String) : String :=
  match a with
  | some s => if s = "" then b else s
  | none => b

/-- getOverallResult: null on an empty prediction list, otherwise
"Defects Detected" when some class label lower-cased contains "bad",
else "No Defects". -/
def getOverallResult (predictions : List Prediction) : Option String :=
  if predictions.length = 0 then none
  else if predictions.any fun pred => jsIncludes (jsToLower pred.cls) ("bad") then
    some ("Defects Detected")
  else some ("No Defects")

/-- Outcome of the axios call as seen inside processImage: either a
parsed success body whose predictions field may be absent, or a thrown
error carrying the optional response-body error field and the optional
error message. -/
inductive ClientResult where
  | success (predictions : Option (List Prediction))
  | failure (responseError : Option String) (message : Option String)
deriving DecidableEq

/-- The synchronous prefix of processImage, executed before the network
request is issued: set the object URL, clear predictions, dimensions
and error, raise the loading and scanning flags. -/
def processImageStart (url : String) (s : AnalysisState) : AnalysisState :=
  { s with imageURL := some url, predictions := [], imageSize := none,
           error := none, isLoading := true, scanAnimation := true }

/-- The continuation of processImage once the request settles: on
success store res.data.predictions || [], on failure store
err.response?.data?.error || err.message || "Failed to analyze image";
in both cases clear isLoading (the finally block).  scanAnimation stays
raised until the cosmetic timeout fires, outside this function. -/
def processImageFinish (r : ClientResult) (s : AnalysisState) : AnalysisState :=
  match r with
  | .success preds => { s with predictions := preds.getD [], isLoading := false }
  | .failure respErr msg =>
    { s with error := some (jsOrStr respErr (jsOrStr msg ("Failed to analyze image"))),
             isLoading := false }

/-- processImage end to end, for a request that settles with result r. -/
def processImage (url : String) (r : ClientResult) (s : AnalysisState) : AnalysisState :=
  processImageFinish r (processImageStart url s)

/-- The fixed upstream inference endpoint of the proxy route. -/
def apiUrl : String :=
  "https://welding-defects-production.up.railway.app/predict"

/-- An HTTP request issued by fetch, with its body of type β. -/
structure FetchRequest (β : Type) where
  url : String
  method : String
  body : β
deriving DecidableEq

/-- An upstream fetch response: its status and the result of calling
response.json() on it (Except.error is a thrown parse failure, carrying
the optional exception message). -/
structure UpstreamResponse (α : Type) where
  status : Nat
  jsonResult : Except (Option String) α

/-- response.ok of the fetch API: status in the range 200 to 299. -/
def statusOk (status : Nat) : Bool :=
  200 ≤ status && status ≤ 299

/-- Body of a response produced by the proxy route: either the
passthrough upstream payload or a JSON object with an error field. -/
inductive ResponseBody (α : Type) where
  | payload (a : α)
  | errorField (msg : String)
deriving DecidableEq

/-- A response produced by the proxy route. -/
structure ProxyResponse (α : Type) where
  status : Nat
  body : ResponseBody α

/-- The error string built by the proxy for a non-ok upstream status. -/
def statusMsg (status : Nat) : String :=
  "API responded with status: " ++ toString status

/-- The POST handler of src/app/api/model/route.ts.  formDataResult is
the outcome of await request.formData(); upstream maps the issued fetch
request to a thrown error or an upstream response.  Returns the
response sent to the client together with the fetch request that was
issued (none when formData parsing threw before fetch). -/
def POST {β α : Type}
    (formDataResult : Except (Option String) β)
    (upstream : FetchRequest β → Except (Option String) (UpstreamResponse α)) :
    ProxyResponse α × Option (FetchRequest β) :=
  match formDataResult with
  | .error e => (⟨500, .errorField (jsOrStr e ("Internal server error"))⟩, none)
  | .ok fd =>
    let req : FetchRequest β := ⟨apiUrl, "POST", fd⟩
    match upstream req with
    | .error e => (⟨500, .errorField (jsOrStr e ("Internal server error"))⟩, some req)
    | .ok resp =>
      if !statusOk resp.status then
        (⟨resp.status, .errorField (statusMsg resp.status)⟩, some req)
      else
        match resp.jsonResult with
        | .error e => (⟨500, .errorField (jsOrStr e ("Internal server error"))⟩, some req)
        | .ok d => (⟨200, .payload d⟩, some req)

/-- The axios call of processImage, applied to a proxy response: a 2xx
response resolves with its predictions field (absent when the body is
not a payload), any other status rejects with an error whose
response.data.error is the body error field when present and whose
message is the standard axios status message. -/
def axiosPost (r : ProxyResponse (Option (List Prediction))) : ClientResult :=
  if statusOk r.status then
    match r.body with
    | .payload preds => .success preds
    | .errorField _ => .success none
  else
    .failure
      (match r.body with
       | .errorField e => some e
       | .payload _ => none)
      (some ("Request failed with status code " ++ toString r.status))

/-- The full client-to-upstream pipeline of one analysis: run the
synchronous prefix of processImage, send the form data through the
proxy route, and feed the axios outcome to the continuation. -/
def analyzeViaProxy {β : Type} (url : String)
    (formDataResult : Except (Option String) β)
    (upstream : FetchRequest β → Except (Option String) (UpstreamResponse (Option (List Prediction))))
    (s : AnalysisState) : AnalysisState :=
  processImageFinish (axiosPost (POST formDataResult upstream).1) (processImageStart url s)

/-- A concrete analysis state used by closed instantiations. -/
def exAnalysis : AnalysisState := ⟨none, [], none, false, none, false⟩

/-- A concrete prediction with a defect label, as in the spec example. -/
def examplePred : Prediction := ⟨(0, 0, 10, 10), "bad_weld", 92 / 100⟩

/-- A concrete two-track front-camera stream. -/
def exStream : MediaStream := ⟨[⟨0, false⟩, ⟨1, false⟩], FacingMode.user⟩

/-- A concrete camera state with the stream attached. -/
def exCam : CamUI := ⟨some ⟨some exStream⟩, true, FacingMode.user, none⟩

/-- A concrete camera state whose video element is not mounted. -/
def exCamNoVideo : CamUI := ⟨none, false, FacingMode.user, none⟩

/-- A concrete camera environment where only the front camera exists. -/
def exGum : MediaConstraint → Option MediaStream := fun c =>
  match c with
  | .exactMode .user => some ⟨[⟨2, false⟩], FacingMode.user⟩
  | _ => none

/-- A concrete upstream that always answers with HTTP 503. -/
def exUpstream :
    FetchRequest Unit → Except (Option String) (UpstreamResponse (Option (List Prediction))) :=
  fun _ => Except.ok ⟨503, Except.error none⟩

theorem toggleMode_ne (m : FacingMode) : toggleMode m ≠ m := by
  cases m <;> decide

theorem streamActiveTracks_stopTracks (m : MediaStream) :
    streamActiveTracks (stopTracks m) = 0 := by
  obtain ⟨tks, fc⟩ := m
  simp only [streamActiveTracks, stopTracks]
  induction tks with
  | nil => rfl
  | cons t ts ih => simp [ih]

theorem statusMsg_ne_empty (n : Nat) : statusMsg n ≠ "" := by
  intro h
  have h2 : (statusMsg n).data = [] := by rw [h]
  rw [statusMsg, String.data_append] at h2
  rcases List.append_eq_nil.mp h2 with ⟨h3, _⟩
  exact absurd h3 (by decide)

theorem statusMsg_contains_toString (n : Nat) :
    (toString n).toList <:+: (statusMsg n).toList := by
  rw [statusMsg]
  have h : (("API responded with status: " ++ toString n)).toList
      = ("API responded with status: ").toList ++ (toString n).toList := rfl
  rw [h]
  exact (List.suffix_append _ _).isInfix

/-- C1 (counterexample): on the concrete input of an empty prediction
list no class label contains "bad", yet the computed verdict is null
rather than "No Defects", refuting the claim as stated for that input. -/
theorem overall_verdict_empty_counterexample :
    (¬ ∃ p ∈ ([] : List Prediction), ("bad").toList <:+: (jsToLower p.cls).toList) ∧
    getOverallResult [] = none ∧
    getOverallResult [] ≠ some ("No Defects") := by
  refine ⟨by simp, rfl, by simp [getOverallResult]⟩

/-- C1 (amended): for every successful analysis whose returned
prediction list is nonempty, the overall verdict is "Defects Detected"
if and only if some prediction class label, lower-cased, contains the
substring "bad"; when no label does, the verdict is "No Defects". -/
theorem overall_verdict_iff_bad_label (ps : List Prediction) (hne : ps ≠ []) :
    (getOverallResult ps = some ("Defects Detected") ↔
      ∃ p ∈ ps, ("bad").toList <:+: (jsToLower p.cls).toList) ∧
    ((¬ ∃ p ∈ ps, ("bad").toList <:+: (jsToLower p.cls).toList) →
      getOverallResult ps = some ("No Defects")) := by
  have hlen : ¬ ps.length = 0 := by simpa [List.length_eq_zero] using hne
  by_cases h : ∃ p ∈ ps, ("bad").toList <:+: (jsToLower p.cls).toList
  · have hany : (ps.any fun pred => jsIncludes (jsToLower pred.cls) ("bad")) = true := by
      simpa [List.any_eq_true, jsIncludes] using h
    have hval : getOverallResult ps = some ("Defects Detected") := by
      simp [getOverallResult, hlen, hany]
    exact ⟨by rw [hval]; exact iff_of_true rfl h, fun hc => absurd h hc⟩
  · have hany : (ps.any fun pred => jsIncludes (jsToLower pred.cls) ("bad")) = false := by
      cases hb : ps.any fun pred => jsIncludes (jsToLower pred.cls) ("bad") with
      | false => rfl
      | true => exact absurd (by simpa [List.any_eq_true, jsIncludes] using hb) h
    have hval : getOverallResult ps = some ("No Defects") := by
      simp [getOverallResult, hlen, hany]
    refine ⟨?_, fun _ => hval⟩
    rw [hval]
    constructor
    · intro habs
      exact absurd (Option.some.inj habs) (by decide)
    · intro hex
      exact absurd hex h

/-- Witness for C1: a singleton list with label "bad_weld" yields the
verdict "Defects Detected". -/
theorem overall_verdict_iff_bad_label_witness :
    getOverallResult [examplePred] = some ("Defects Detected") :=
  ((overall_verdict_iff_bad_label [examplePred] (by decide)).1).mpr
    ⟨examplePred, List.mem_singleton.mpr rfl, by decide⟩

/-- C2: the synchronous prefix of processImage, run on every invocation
before the request to the proxy route is issued, leaves the prediction
list empty and the image dimensions cleared; the network outcome is
consumed only by the continuation applied on top of that prefix. -/
theorem processImageStart_clears (url : String) (s : AnalysisState) :
    (processImageStart url s).predictions = [] ∧
    (processImageStart url s).imageSize = none ∧
    ∀ r, processImage url r s = processImageFinish r (processImageStart url s) :=
  ⟨rfl, rfl, fun _ => rfl⟩

/-- C3: the proxy route maps a formData exception to a 500 JSON error,
a thrown fetch to a 500 JSON error, a non-ok upstream status to a JSON
error carrying that same status, an ok upstream status with parseable
JSON to the parsed body unchanged with status 200, and a JSON parse
failure to a 500 JSON error; no case propagates an exception. -/
theorem POST_error_handling {β α : Type}
    (fdr : Except (Option String) β)
    (upstream : FetchRequest β → Except (Option String) (UpstreamResponse α)) :
    (∀ e, fdr = Except.error e →
      (POST fdr upstream).1.status = 500 ∧
      ∃ m, (POST fdr upstream).1.body = ResponseBody.errorField m) ∧
    (∀ fd, fdr = Except.ok fd →
      (∀ e, upstream ⟨apiUrl, "POST", fd⟩ = Except.error e →
        (POST fdr upstream).1.status = 500 ∧
        ∃ m, (POST fdr upstream).1.body = ResponseBody.errorField m) ∧
      (∀ resp, upstream ⟨apiUrl, "POST", fd⟩ = Except.ok resp →
        (statusOk resp.status = false →
          (POST fdr upstream).1.status = resp.status ∧
          (POST fdr upstream).1.body = ResponseBody.errorField (statusMsg resp.status)) ∧
        (∀ d, statusOk resp.status = true → resp.jsonResult = Except.ok d →
          (POST fdr upstream).1.status = 200 ∧
          (POST fdr upstream).1.body = ResponseBody.payload d) ∧
        (∀ e, statusOk resp.status = true → resp.jsonResult = Except.error e →
          (POST fdr upstream).1.status = 500 ∧
          ∃ m, (POST fdr upstream).1.body = ResponseBody.errorField m))) := by
  constructor
  · intro e he
    subst he
    exact ⟨rfl, ⟨jsOrStr e ("Internal server error"), rfl⟩⟩
  · intro fd hfd
    subst hfd
    constructor
    · intro e hup
      simp [POST, hup]
    · intro resp hup
      refine ⟨?_, ?_, ?_⟩
      · intro hnot
        simp [POST, hup, hnot]
      · intro d hok hjson
        simp [POST, hup, hok, hjson]
      · intro e hok hjson
        simp [POST, hup, hok, hjson]

/-- Witness for C3: with form data parsed and an upstream answering
503, the proxy answers 503 with the matching error body. -/
theorem POST_error_handling_witness :
    (POST (Except.ok ()) exUpstream).1.status = 503 ∧
    (POST (Except.ok ()) exUpstream).1.body = ResponseBody.errorField (statusMsg 503) :=
  ((POST_error_handling (Except.ok ()) exUpstream).2 () rfl).2
    ⟨503, Except.error none⟩ rfl |>.1 (by decide)

/-- C4: whenever the incoming form data parses, the proxy route issues
exactly one fetch, an HTTP POST to the fixed upstream URL whose body is
the parsed form data, unmodified. -/
theorem POST_forwards_body {β α : Type} (fd : β)
    (upstream : FetchRequest β → Except (Option String) (UpstreamResponse α)) :
    (POST (Except.ok fd) upstream).2 = some ⟨apiUrl, "POST", fd⟩ := by
  unfold POST
  cases hup : upstream ⟨apiUrl, "POST", fd⟩ with
  | error e => simp [hup]
  | ok resp =>
    by_cases hok : statusOk resp.status
    · cases hjson : resp.jsonResult with
      | error e => simp [hup, hok, hjson]
      | ok d => simp [hup, hok, hjson]
    · simp [hup, hok]

/-- C5: when the upstream answers a non-ok status, the completed
analysis stores an error message containing that status code, clears
the loading flag and leaves the prediction list empty. -/
theorem analysis_upstream_failure {β : Type} (url : String) (fd : β)
    (upstream : FetchRequest β → Except (Option String) (UpstreamResponse (Option (List Prediction))))
    (resp : UpstreamResponse (Option (List Prediction))) (s : AnalysisState)
    (hup : upstream ⟨apiUrl, "POST", fd⟩ = Except.ok resp)
    (hfail : statusOk resp.status = false) :
    (∃ msg, (analyzeViaProxy url (Except.ok fd) upstream s).error = some msg ∧
      (toString resp.status).toList <:+: msg.toList) ∧
    (analyzeViaProxy url (Except.ok fd) upstream s).isLoading = false ∧
    (analyzeViaProxy url (Except.ok fd) upstream s).predictions = [] := by
  have hpost : (POST (Except.ok fd) upstream).1
      = ⟨resp.status, ResponseBody.errorField (statusMsg resp.status)⟩ := by
    simp [POST, hup, hfail]
  have haxios : axiosPost (POST (Except.ok fd) upstream).1
      = ClientResult.failure (some (statusMsg resp.status))
          (some (("Request failed with status code ") ++ toString resp.status)) := by
    rw [hpost]
    simp [axiosPost, hfail]
  unfold analyzeViaProxy
  rw [haxios]
  refine ⟨⟨statusMsg resp.status, ?_, statusMsg_contains_toString resp.status⟩, rfl, rfl⟩
  simp [processImageFinish, jsOrStr, statusMsg_ne_empty resp.status]

/-- Witness for C5: an upstream 503 yields a stored message containing
"503", loading cleared, no predictions. -/
theorem analysis_upstream_failure_witness :
    (∃ msg, (analyzeViaProxy ("u") (Except.ok ()) exUpstream exAnalysis).error = some msg ∧
      (toString 503).toList <:+: msg.toList) ∧
    (analyzeViaProxy ("u") (Except.ok ()) exUpstream exAnalysis).isLoading = false ∧
    (analyzeViaProxy ("u") (Except.ok ()) exUpstream exAnalysis).predictions = [] :=
  analysis_upstream_failure ("u") () exUpstream ⟨503, Except.error none⟩ exAnalysis rfl (by decide)

/-- C6: stopCamera clears the camera-active flag, clears the video
element stream reference, stops every track of the stream it detached,
and leaves zero active media tracks. -/
theorem stopCamera_spec (s : CamUI) :
    (stopCamera s).1.isCameraActive = false ∧
    (∀ v, (stopCamera s).1.video = some v → v.srcObject = none) ∧
    (∀ m, (stopCamera s).2 = some m → ∀ t ∈ m.tracks, t.stopped = true) ∧
    activeTrackCount (stopCamera s).1 (stopCamera s).2 = 0 := by
  obtain ⟨video, act, mode, err⟩ := s
  cases video with
  | none =>
    refine ⟨rfl, ?_, ?_, rfl⟩
    · intro v hv
      exact Option.noConfusion hv
    · intro m hm
      exact Option.noConfusion hm
  | some v =>
    obtain ⟨so⟩ := v
    cases so with
    | none =>
      refine ⟨rfl, ?_, ?_, rfl⟩
      · intro v hv
        rw [← Option.some.inj hv]
      · intro m hm
        exact Option.noConfusion hm
    | some m =>
      refine ⟨rfl, ?_, ?_, ?_⟩
      · intro v hv
        rw [← Option.some.inj hv]
      · intro m2 hm t ht
        rw [← Option.some.inj hm] at ht
        simp only [stopTracks, List.mem_map] at ht
        obtain ⟨t0, _, rfl⟩ := ht
        rfl
      · simp [stopCamera, activeTrackCount, streamActiveTracks_stopTracks]

/-- Witness for C6: stopping the example camera leaves the flag down
and zero active tracks. -/
theorem stopCamera_spec_witness :
    (stopCamera exCam).1.isCameraActive = false ∧
    activeTrackCount (stopCamera exCam).1 (stopCamera exCam).2 = 0 :=
  ⟨(stopCamera_spec exCam).1, (stopCamera_spec exCam).2.2.2⟩

/-- C7: when the video element exists, acquiring the opposite facing
mode fails and the prior mode is still available, switchCamera attaches
the stream re-acquired for the prior mode, so a stream stays active. -/
theorem switchCamera_fallback (gum : MediaConstraint → Option MediaStream)
    (s : CamUI) (v : VideoEl) (fbs : MediaStream)
    (hv : s.video = some v)
    (hfail : gum (MediaConstraint.exactMode (toggleMode s.cameraFacingMode)) = none)
    (hfb : gum (MediaConstraint.exactMode s.cameraFacingMode) = some fbs) :
    (switchCamera gum s).video = some { srcObject := some fbs } := by
  obtain ⟨video, act, mode, err⟩ := s
  cases hv
  obtain ⟨so⟩ := v
  cases so with
  | none => simp [switchCamera, hfail, hfb]
  | some m => simp [switchCamera, hfail, hfb]

/-- Witness for C7: with only the front camera available, switching
away from the front camera falls back to a front-camera stream. -/
theorem switchCamera_fallback_witness :
    (switchCamera exGum exCam).video
      = some { srcObject := some ⟨[⟨2, false⟩], FacingMode.user⟩ } :=
  switchCamera_fallback exGum exCam ⟨some exStream⟩ ⟨[⟨2, false⟩], FacingMode.user⟩ rfl rfl rfl

/-- C9: switchCamera records the toggled facing mode unconditionally,
so after a failed switch that fell back to a stream of the prior
facing mode, the recorded mode disagrees with the facing mode of the
stream actually attached. -/
theorem switchCamera_mode_mismatch (gum : MediaConstraint → Option MediaStream)
    (s : CamUI) (v : VideoEl) (fbs : MediaStream)
    (hv : s.video = some v)
    (hfail : gum (MediaConstraint.exactMode (toggleMode s.cameraFacingMode)) = none)
    (hfb : gum (MediaConstraint.exactMode s.cameraFacingMode) = some fbs)
    (hfacing : fbs.facing = s.cameraFacingMode) :
    (switchCamera gum s).cameraFacingMode = toggleMode s.cameraFacingMode ∧
    (switchCamera gum s).video = some { srcObject := some fbs } ∧
    (switchCamera gum s).cameraFacingMode ≠ fbs.facing := by
  obtain ⟨video, act, mode, err⟩ := s
  cases hv
  obtain ⟨so⟩ := v
  have hmode : (switchCamera gum (⟨some ⟨so⟩, act, mode, err⟩ : CamUI)).cameraFacingMode
      = toggleMode mode := by
    cases so with
    | none => simp [switchCamera, hfail, hfb]
    | some m => simp [switchCamera, hfail, hfb]
  have hvid : (switchCamera gum (⟨some ⟨so⟩, act, mode, err⟩ : CamUI)).video
      = some { srcObject := some fbs } := by
    cases so with
    | none => simp [switchCamera, hfail, hfb]
    | some m => simp [switchCamera, hfail, hfb]
  refine ⟨hmode, hvid, ?_⟩
  rw [hmode, hfacing]
  exact toggleMode_ne mode

/-- Witness for C9: after the failed switch the recorded mode is the
back camera while the attached stream is a front-camera stream. -/
theorem switchCamera_mode_mismatch_witness :
    (switchCamera exGum exCam).cameraFacingMode = FacingMode.environment ∧
    (switchCamera exGum exCam).video
      = some { srcObject := some ⟨[⟨2, false⟩], FacingMode.user⟩ } ∧
    (switchCamera exGum exCam).cameraFacingMode ≠ FacingMode.user :=
  switchCamera_mode_mismatch exGum exCam ⟨some exStream⟩ ⟨[⟨2, false⟩], FacingMode.user⟩
    rfl rfl rfl rfl

/-- C10: when the video element reference is null, startCamera requests
no media stream, sets no error, leaves the camera-active flag true and
the video reference still null. -/
theorem startCamera_null_video (isMobile : Bool)
    (gum : MediaConstraint → Option MediaStream) (s : CamUI)
    (hv : s.video = none) :
    (startCamera isMobile gum s).2 = [] ∧
    (startCamera isMobile gum s).1.error = s.error ∧
    (startCamera isMobile gum s).1.isCameraActive = true ∧
    (startCamera isMobile gum s).1.video = none := by
  obtain ⟨video, act, mode, err⟩ := s
  cases hv
  exact ⟨rfl, rfl, rfl, rfl⟩

/-- Witness for C10: starting the camera with no mounted video element
issues no getUserMedia request and leaves the flag raised. -/
theorem startCamera_null_video_witness :
    (startCamera false exGum exCamNoVideo).2 = [] ∧
    (startCamera false exGum exCamNoVideo).1.error = none ∧
    (startCamera false exGum exCamNoVideo).1.isCameraActive = true ∧
    (startCamera false exGum exCamNoVideo).1.video = none :=
  startCamera_null_video false exGum exCamNoVideo rfl

/-- C8: the verdict computation returns null exactly on the empty
prediction list, and a successful response without a predictions field
is stored as the empty list, so no verdict badge appears for it. -/
theorem no_verdict_iff_no_predictions (ps : List Prediction) (url : String) (s : AnalysisState) :
    (getOverallResult ps = none ↔ ps = []) ∧
    (processImageFinish (ClientResult.success none) (processImageStart url s)).predictions = [] := by
  constructor
  · constructor
    · intro hnone
      by_contra hne
      have hlen : ¬ ps.length = 0 := by simpa [List.length_eq_zero] using hne
      unfold getOverallResult at hnone
      rw [if_neg hlen] at hnone
      by_cases hb : (ps.any fun pred => jsIncludes (jsToLower pred.cls) ("bad")) = true
      · rw [if_pos hb] at hnone
        exact Option.noConfusion hnone
      · rw [if_neg hb] at hnone
        exact Option.noConfusion hnone
    · intro he
      subst he
      rfl
  · rfl

/-- Witness for C8: the empty list yields no verdict and a
predictions-free success is stored as the empty list. -/
theorem no_verdict_iff_no_predictions_witness :
    getOverallResult [] = none ∧
    (processImageFinish (ClientResult.success none)
      (processImageStart ("u") exAnalysis)).predictions = [] :=
  ⟨(no_verdict_iff_no_predictions [] ("u") exAnalysis).1.mpr rfl,
   (no_verdict_iff_no_predictions [] ("u") exAnalysis).2⟩

end WeldDetect
